import Mathlib

/-!
Shallow embedding of `xbmc/utils/PIDWatcher.{h,cpp}` (class `PIDWatcher`),
a thread-safe handle to one OS child process.

Modelling conventions:
* The four data members of the class become the fields of the `PIDWatcher`
  structure; `pid_t` and the C `int` status are modelled as `Int`.
* OS calls are factored into an `OSEnv`: `alive p` is `kill(p, 0) == 0`
  and `waitStatus p` is the status written by `waitpid(p, &status, 0)`.
* Every method acquires the one instance mutex for its whole body, so a
  method call is one atomic state transition; blocking on the
  `pid_assigned_condition` (inside `ensure_pid`) is modelled by returning
  `none` — a blocked call performs no state mutation before blocking.
* Throwing methods return `Except`; `set_pid` additionally reports whether
  `pid_assigned_condition.notifyAll()` was executed, and `running` reports
  whether the `kill(pid_, 0)` liveness probe was issued.
-/

set_option autoImplicit false

/-- Outcomes of the OS calls the watcher can make: `alive p` models
`kill(p, 0) == 0` (process exists), `waitStatus p` models the status word
stored by `waitpid(p, &status, 0)`. -/
structure OSEnv where
  alive : Int → Bool
  waitStatus : Int → Int

/-- The data members of class `PIDWatcher` (PIDWatcher.h): `wait_exit_`,
`pid_`, `status_`, `has_exited_`. The mutex and condition variable carry no
state of their own in the atomic-method model. -/
structure PIDWatcher where
  wait_exit_ : Bool
  pid_ : Int
  status_ : Int
  has_exited_ : Bool
  deriving DecidableEq, Repr

/-- `PIDWatcher::has_pid`: `return pid_ > 0;`. -/
def PIDWatcher.has_pid (w : PIDWatcher) : Bool :=
  decide (0 < w.pid_)

/-- Default constructor `PIDWatcher::PIDWatcher()`. -/
def PIDWatcher.mk0 : PIDWatcher :=
  { wait_exit_ := true, pid_ := 0, status_ := 0, has_exited_ := false }

/-- PID-taking constructor `PIDWatcher::PIDWatcher(pid_t pid)`: stores
`pid` with no validation whatsoever. -/
def PIDWatcher.mkPid (pid : Int) : PIDWatcher :=
  { wait_exit_ := true, pid_ := pid, status_ := 0, has_exited_ := false }

/-- The two exceptions `PIDWatcher::set_pid` can throw (both
`std::runtime_error` in the source, distinguished by their messages). -/
inductive AssignError
  | InvalidIdentifier
  | AlreadyWatching
  deriving DecidableEq, Repr

/-- `PIDWatcher::set_pid(pid_t pid)`:
`if (pid < 1) throw` InvalidIdentifier; then (under the lock)
`if (has_pid() && pid != pid_) throw` AlreadyWatching; otherwise
`pid_ = pid; pid_assigned_condition.notifyAll();`.
On success the returned `Bool` is whether `notifyAll` ran (always `true`
on the success path in the source). -/
def PIDWatcher.set_pid (w : PIDWatcher) (pid : Int) :
    Except AssignError (PIDWatcher × Bool) :=
  if pid < 1 then
    Except.error AssignError.InvalidIdentifier
  else if w.has_pid && decide (pid ≠ w.pid_) then
    Except.error AssignError.AlreadyWatching
  else
    Except.ok ({ w with pid_ := pid }, true)

/-- `PIDWatcher::get_pid()`: `ensure_pid(lock); return pid_;`.
`none` models `ensure_pid` blocking on `pid_assigned_condition` because no
PID is assigned; nothing is mutated before the block. -/
def PIDWatcher.get_pid (w : PIDWatcher) : Option (Int × PIDWatcher) :=
  if w.has_pid then some (w.pid_, w) else none

/-- `PIDWatcher::running()`: under the lock,
`if (!has_exited_ && has_pid()) has_exited_ = kill(pid_, 0) != 0;`
then `return !has_exited_;`. Result: (return value, new state, whether the
`kill(pid_, 0)` OS probe was issued). -/
def PIDWatcher.running (w : PIDWatcher) (env : OSEnv) :
    Bool × PIDWatcher × Bool :=
  if !w.has_exited_ && w.has_pid then
    let w' := { w with has_exited_ := !env.alive w.pid_ }
    (!w'.has_exited_, w', true)
  else
    (!w.has_exited_, w, false)

/-- Private helper `PIDWatcher::wait_(CSingleLock&)`:
`if (has_pid() && !has_exited_) waitpid(pid_, &status_, 0);`
then `has_exited_ = true;`. The returned `Bool` is whether the `waitpid`
reap was performed. -/
def PIDWatcher.wait_ (w : PIDWatcher) (env : OSEnv) : PIDWatcher × Bool :=
  if w.has_pid && !w.has_exited_ then
    ({ w with status_ := env.waitStatus w.pid_, has_exited_ := true }, true)
  else
    ({ w with has_exited_ := true }, false)

/-- `PIDWatcher::wait()`: `ensure_pid(lock); return wait_(lock);`.
`none` models `ensure_pid` blocking because no PID is assigned. -/
def PIDWatcher.wait (w : PIDWatcher) (env : OSEnv) :
    Option (PIDWatcher × Bool) :=
  if w.has_pid then some (w.wait_ env) else none

/-- `PIDWatcher::reset()`: `pid_ = 0; status_ = 0; has_exited_ = true;`. -/
def PIDWatcher.reset (w : PIDWatcher) : PIDWatcher :=
  { w with pid_ := 0, status_ := 0, has_exited_ := true }

/-- `PIDWatcher::terminate()`: if `has_pid() && !has_exited_`, send
`SIGTERM` via `kill` (a delivery failure is only logged). State is never
mutated; the returned `Bool` is whether the signal was sent. -/
def PIDWatcher.terminate (w : PIDWatcher) (_env : OSEnv) :
    PIDWatcher × Bool :=
  if w.has_pid && !w.has_exited_ then (w, true) else (w, false)

/-- `PIDWatcher::getWaitExit()`. -/
def PIDWatcher.getWaitExit (w : PIDWatcher) : Bool :=
  w.wait_exit_

/-- `PIDWatcher::setWaitExit(bool b)`. -/
def PIDWatcher.setWaitExit (w : PIDWatcher) (b : Bool) : PIDWatcher :=
  { w with wait_exit_ := b }

/-- The `WIFEXITED(status)` macro: `(status & 0x7f) == 0`, written
arithmetically for the non-negative status words `waitpid` produces. -/
def wifexited (s : Int) : Bool :=
  decide (s.emod 128 = 0)

/-- The `WEXITSTATUS(status)` macro: `(status >> 8) & 0xff`, written
arithmetically for the non-negative status words `waitpid` produces. -/
def wexitstatus (s : Int) : Int :=
  (s.ediv 256).emod 256

/-- `PIDWatcher::exitedProperly()`: `wait(); return WIFEXITED(status_);`.
`none` models the wait blocking because no PID is assigned. -/
def PIDWatcher.exitedProperly (w : PIDWatcher) (env : OSEnv) :
    Option (Bool × PIDWatcher) :=
  (w.wait env).map fun r => (wifexited r.1.status_, r.1)

/-- `PIDWatcher::getExitStatus()`: `wait(); return WEXITSTATUS(status_);`. -/
def PIDWatcher.getExitStatus (w : PIDWatcher) (env : OSEnv) :
    Option (Int × PIDWatcher) :=
  (w.wait env).map fun r => (wexitstatus r.1.status_, r.1)

/-- `PIDWatcher::success()`:
`wait(); return WIFEXITED(status_) && WEXITSTATUS(status_) == 0;`. -/
def PIDWatcher.success (w : PIDWatcher) (env : OSEnv) :
    Option (Bool × PIDWatcher) :=
  (w.wait env).map fun r =>
    (wifexited r.1.status_ && decide (wexitstatus r.1.status_ = 0), r.1)

/-- `PIDWatcher::~PIDWatcher()`: `if (has_pid() && wait_exit_) wait();`.
This is the guard of the destructor's blocking-wait branch: when it is
`false` the destructor performs no wait at all. -/
def PIDWatcher.destructorWaits (w : PIDWatcher) : Bool :=
  w.has_pid && w.wait_exit_

/-- The public operations of `PIDWatcher`, for quantifying over arbitrary
call sequences. -/
inductive Op
  | set_pid (p : Int)
  | get_pid
  | wait
  | reset
  | terminate
  | running
  | getWaitExit
  | setWaitExit (b : Bool)
  | exitedProperly
  | getExitStatus
  | success
  | has_pid
  deriving DecidableEq, Repr

/-- The state transition performed by one operation. A call that throws
leaves the object in its pre-call state; a call that blocks in
`ensure_pid` has mutated nothing before blocking, so its state effect up
to the block is also the identity. -/
def PIDWatcher.step (env : OSEnv) (op : Op) (w : PIDWatcher) : PIDWatcher :=
  match op with
  | Op.set_pid p =>
    match w.set_pid p with
    | Except.ok r => r.1
    | Except.error _ => w
  | Op.get_pid => w
  | Op.wait =>
    match w.wait env with
    | some r => r.1
    | none => w
  | Op.reset => w.reset
  | Op.terminate => (w.terminate env).1
  | Op.running => (w.running env).2.1
  | Op.getWaitExit => w
  | Op.setWaitExit b => w.setWaitExit b
  | Op.exitedProperly =>
    match w.exitedProperly env with
    | some r => r.2
    | none => w
  | Op.getExitStatus =>
    match w.getExitStatus env with
    | some r => r.2
    | none => w
  | Op.success =>
    match w.success env with
    | some r => r.2
    | none => w
  | Op.has_pid => w

/-- Iterated `PIDWatcher.step` over a call sequence. -/
def PIDWatcher.steps (env : OSEnv) : List Op → PIDWatcher → PIDWatcher
  | [], w => w
  | op :: ops, w => PIDWatcher.steps env ops (PIDWatcher.step env op w)

/-- A concrete environment for witnesses: every probe reports the process
gone and every reap stores status 0. -/
def envDead : OSEnv :=
  { alive := fun _ => false, waitStatus := fun _ => 0 }

/-! ### Shared lemmas about the individual methods -/

theorem PIDWatcher.has_pid_iff (w : PIDWatcher) :
    w.has_pid = true ↔ 0 < w.pid_ := by
  simp [PIDWatcher.has_pid]

theorem PIDWatcher.set_pid_nonpositive (w : PIDWatcher) (p : Int)
    (hp : p < 1) :
    w.set_pid p = Except.error AssignError.InvalidIdentifier := by
  simp only [PIDWatcher.set_pid, if_pos hp]

theorem PIDWatcher.set_pid_same (w : PIDWatcher) (p : Int)
    (h : w.has_pid = true) (hp : p = w.pid_) :
    w.set_pid p = Except.ok (w, true) := by
  have hpos : 0 < w.pid_ := (PIDWatcher.has_pid_iff w).mp h
  have h1 : ¬ p < 1 := by omega
  subst hp
  simp [PIDWatcher.set_pid, h1]

theorem PIDWatcher.set_pid_different (w : PIDWatcher) (q : Int)
    (h : w.has_pid = true) (h1 : ¬ q < 1) (hne : q ≠ w.pid_) :
    w.set_pid q = Except.error AssignError.AlreadyWatching := by
  simp [PIDWatcher.set_pid, h1, h, hne]

theorem PIDWatcher.set_pid_fresh (w : PIDWatcher) (p : Int)
    (h : w.has_pid = false) (h1 : ¬ p < 1) :
    w.set_pid p = Except.ok ({ w with pid_ := p }, true) := by
  simp [PIDWatcher.set_pid, h1, h]

/-! ### Claims C2, C3, C4, C10: the `set_pid` contract -/

/-- C2, counterexample: on a watcher already holding pid 5, a second
`set_pid 5` succeeds with the state unchanged but the success path of
`PIDWatcher::set_pid` still executes `pid_assigned_condition.notifyAll()`
(the `true` component), contradicting the claim that the condition
variable is not re-notified on the identical re-assignment. -/
theorem C2_counterexample :
    (PIDWatcher.mkPid 5).set_pid 5 = Except.ok (PIDWatcher.mkPid 5, true) := by
  rfl

/-- C2, amended: re-assigning the identical pid `p` to a watcher that
already holds `p` succeeds and leaves the observable state unchanged, but
it does re-broadcast: `notifyAll` is executed again on this call. -/
theorem C2_assign_same_noop_but_renotifies (w : PIDWatcher) (p : Int)
    (h : w.has_pid = true) (hp : p = w.pid_) :
    w.set_pid p = Except.ok (w, true) :=
  PIDWatcher.set_pid_same w p h hp

/-- C2, witness for the amended theorem at pid 9. -/
theorem C2_witness :
    (PIDWatcher.mkPid 9).set_pid 9 = Except.ok (PIDWatcher.mkPid 9, true) :=
  C2_assign_same_noop_but_renotifies (PIDWatcher.mkPid 9) 9 (by decide) rfl

/-- C3, counterexample: with pid 5 already assigned, `set_pid 0` has
`0 ≠ 5`, yet it fails with `InvalidIdentifier` (the `pid < 1` check fires
first), not with `AlreadyWatching` as the claim states for every `q ≠ p`. -/
theorem C3_counterexample :
    (PIDWatcher.mkPid 5).set_pid 0 = Except.error AssignError.InvalidIdentifier ∧
      (PIDWatcher.mkPid 5).set_pid 0 ≠ Except.error AssignError.AlreadyWatching := by
  refine ⟨rfl, fun hcontra => ?_⟩
  have : Except.error (ε := AssignError) (α := PIDWatcher × Bool)
      AssignError.InvalidIdentifier = Except.error AssignError.AlreadyWatching :=
    (rfl : (PIDWatcher.mkPid 5).set_pid 0 = _).symm.trans hcontra
  exact absurd (Except.error.inj this) (by decide)

/-- C3, amended: on a watcher already assigned pid `p`, `set_pid q` with a
*positive* `q ≠ p` fails with `AlreadyWatching`, the state is unchanged
(the throw happens before any mutation), and the watcher still reports
`p`: `get_pid` returns `p` without blocking. A non-positive `q ≠ p`
instead fails with `InvalidIdentifier` (see C4), also leaving the state
unchanged. -/
theorem C3_assign_different_fails (w : PIDWatcher) (q : Int)
    (h : w.has_pid = true) (hq : 1 ≤ q) (hne : q ≠ w.pid_) :
    w.set_pid q = Except.error AssignError.AlreadyWatching ∧
      w.get_pid = some (w.pid_, w) := by
  constructor
  · exact PIDWatcher.set_pid_different w q h (by omega) hne
  · simp [PIDWatcher.get_pid, h]

/-- C3, witness for the amended theorem: watcher holds 5, `set_pid 6`. -/
theorem C3_witness :
    (PIDWatcher.mkPid 5).set_pid 6 = Except.error AssignError.AlreadyWatching ∧
      (PIDWatcher.mkPid 5).get_pid = some (5, PIDWatcher.mkPid 5) :=
  C3_assign_different_fails (PIDWatcher.mkPid 5) 6 (by decide) (by decide)
    (by decide)

/-- C4, counterexample: on a watcher already holding pid 7,
`set_pid (-1)` does fail with `InvalidIdentifier`, but it does not leave
the watcher "in the Unassigned state with no pid stored": pid 7 is still
stored and `has_pid` is still true, refuting the "regardless of prior
state" part of the claim. -/
theorem C4_counterexample :
    (PIDWatcher.mkPid 7).set_pid (-1) = Except.error AssignError.InvalidIdentifier ∧
      (PIDWatcher.mkPid 7).pid_ = 7 ∧ (PIDWatcher.mkPid 7).has_pid = true := by
  exact ⟨rfl, rfl, by decide⟩

/-- C4, amended: for every identifier `p ≤ 0` and every prior state,
`set_pid p` fails with `InvalidIdentifier`; the throw precedes every
mutation and the `notifyAll`, so the state is unchanged — in particular a
watcher that was Unassigned stays Unassigned with no waiter woken. -/
theorem C4_assign_nonpositive_rejected (w : PIDWatcher) (p : Int)
    (hp : p ≤ 0) :
    w.set_pid p = Except.error AssignError.InvalidIdentifier :=
  PIDWatcher.set_pid_nonpositive w p (by omega)

/-- C4, witness at `p = -2` on the freshly constructed watcher. -/
theorem C4_witness :
    PIDWatcher.mk0.set_pid (-2) = Except.error AssignError.InvalidIdentifier :=
  C4_assign_nonpositive_rejected PIDWatcher.mk0 (-2) (by decide)

/-- C10: the `PIDWatcher(pid_t)` constructor performs no validation — it
is a total function that stores any `p ≤ 0` unchanged (while `set_pid`
rejects the same `p` with `InvalidIdentifier`), and the resulting watcher
is treated as Unassigned because `has_pid` requires `0 < pid_`. -/
theorem C10_constructor_unvalidated (p : Int) (hp : p ≤ 0) :
    (PIDWatcher.mkPid p).pid_ = p ∧ (PIDWatcher.mkPid p).has_pid = false ∧
      PIDWatcher.mk0.set_pid p = Except.error AssignError.InvalidIdentifier := by
  refine ⟨rfl, ?_, PIDWatcher.set_pid_nonpositive PIDWatcher.mk0 p (by omega)⟩
  simp [PIDWatcher.mkPid, PIDWatcher.has_pid]
  omega

/-- C10, witness at `p = -3`. -/
theorem C10_witness :
    (PIDWatcher.mkPid (-3)).pid_ = -3 ∧
      (PIDWatcher.mkPid (-3)).has_pid = false ∧
      PIDWatcher.mk0.set_pid (-3) = Except.error AssignError.InvalidIdentifier :=
  C10_constructor_unvalidated (-3) (by decide)

/-! ### Shared lemmas about `wait`, `wait_`, `running` -/

theorem PIDWatcher.set_exited_eta (w : PIDWatcher)
    (h : w.has_exited_ = true) : { w with has_exited_ := true } = w := by
  cases w
  simp_all

theorem PIDWatcher.wait__state (w : PIDWatcher) (env : OSEnv) :
    (w.wait_ env).1.pid_ = w.pid_ ∧
      (w.wait_ env).1.wait_exit_ = w.wait_exit_ ∧
      (w.wait_ env).1.has_exited_ = true := by
  unfold PIDWatcher.wait_
  split <;> exact ⟨rfl, rfl, rfl⟩

/-- On an already-exited watcher that has a PID, `wait()` passes
`ensure_pid` at once and `wait_` skips the `waitpid` reap (its guard
`has_pid() && !has_exited_` is false), so the call returns immediately
with the state — `status_` included — unchanged. -/
theorem PIDWatcher.wait_exited_noop (w : PIDWatcher) (env : OSEnv)
    (hx : w.has_exited_ = true) (hp : w.has_pid = true) :
    w.wait env = some (w, false) := by
  unfold PIDWatcher.wait PIDWatcher.wait_
  rw [if_pos hp, if_neg (by simp [hx]), PIDWatcher.set_exited_eta w hx]

theorem PIDWatcher.running_state (w : PIDWatcher) (env : OSEnv) :
    (w.running env).2.1.pid_ = w.pid_ ∧
      (w.running env).2.1.wait_exit_ = w.wait_exit_ ∧
      (w.running env).2.1.status_ = w.status_ := by
  unfold PIDWatcher.running
  split <;> exact ⟨rfl, rfl, rfl⟩

/-- On an already-exited watcher, `running()` skips the probe (its guard
`!has_exited_ && has_pid()` is false) and returns false with the state
unchanged. -/
theorem PIDWatcher.running_exited_false (w : PIDWatcher) (env : OSEnv)
    (hx : w.has_exited_ = true) :
    w.running env = (false, w, false) := by
  simp [PIDWatcher.running, hx]

/-! ### Claims C6, C7, C9: `wait`, `running`, and `reset` interplay -/

/-- C6, counterexample: `mk0.reset` is a watcher in the Exited state
(`has_exited_` is true), yet a call to `wait()` on it does not return
immediately — it blocks forever in `ensure_pid` on the never-notified
condition variable (modelled by `none`), because `reset` also cleared the
PID and `ensure_pid` runs before the `has_exited_` short-circuit. -/
theorem C6_counterexample :
    (PIDWatcher.mk0.reset).has_exited_ = true ∧
      (PIDWatcher.mk0.reset).wait envDead = none :=
  ⟨rfl, rfl⟩

/-- C6, amended: on a watcher that is already Exited *and still has a PID
assigned* (the state an earlier completed `wait()` leaves behind), a
further `wait()` returns immediately without invoking the OS reap again
and with the whole state — `status_` included — unchanged; the reap is
performed at most once. An Exited watcher whose PID was cleared (e.g. by
`reset`) instead blocks in `ensure_pid` awaiting assignment. -/
theorem C6_wait_idempotent_on_exited (env : OSEnv) (w : PIDWatcher)
    (hx : w.has_exited_ = true) (hp : w.has_pid = true) :
    w.wait env = some (w, false) :=
  PIDWatcher.wait_exited_noop w env hx hp

/-- C6, witness: an exited watcher holding pid 5 and status 3. -/
theorem C6_witness :
    PIDWatcher.wait
        { wait_exit_ := true, pid_ := 5, status_ := 3, has_exited_ := true }
        envDead =
      some ({ wait_exit_ := true, pid_ := 5, status_ := 3, has_exited_ := true },
        false) :=
  C6_wait_idempotent_on_exited envDead
    { wait_exit_ := true, pid_ := 5, status_ := 3, has_exited_ := true }
    rfl (by decide)

/-- C7, counterexample: `mk0.reset` has no assigned PID, yet `running()`
returns false, not true — after `reset` the exited flag is set, and
`running` returns `!has_exited_` regardless of PID assignment. -/
theorem C7_counterexample :
    (PIDWatcher.mk0.reset).has_pid = false ∧
      ((PIDWatcher.mk0.reset).running envDead).1 = false :=
  ⟨rfl, rfl⟩

/-- C7, amended: on a watcher with no assigned PID whose exited flag is
not set (e.g. a freshly constructed one), `running()` returns true
(optimistic), issues no OS probe (third component false), and changes
nothing; it never blocks — `running` is a total function in this model,
taking only the short-lived mutex and never waiting on
`pid_assigned_condition`. With no PID but the exited flag set (only
reachable via `reset`), it returns false, still without probe or block. -/
theorem C7_running_no_pid_optimistic (env : OSEnv) (w : PIDWatcher)
    (hp : w.has_pid = false) (hx : w.has_exited_ = false) :
    w.running env = (true, w, false) := by
  simp [PIDWatcher.running, hp, hx]

/-- C7, witness: the freshly constructed empty watcher. -/
theorem C7_witness :
    PIDWatcher.mk0.running envDead = (true, PIDWatcher.mk0, false) :=
  C7_running_no_pid_optimistic envDead PIDWatcher.mk0 (by decide) rfl

/-- C9: after `reset` followed by `set_pid p` with `p > 0`, the watcher
holds the PID but stays Exited: the assignment succeeds (and notifies)
because `reset` cleared `pid_` so the `AlreadyWatching` guard passes, yet
`has_exited_` remains true; hence `running()` returns false with no
probe, and `wait()` returns immediately without the `waitpid` reap, with
`status_` still cleared to 0. -/
theorem C9_assign_after_clear_stays_exited (env : OSEnv) (w : PIDWatcher)
    (p : Int) (hp : 1 ≤ p) :
    ∃ w' : PIDWatcher, w.reset.set_pid p = Except.ok (w', true) ∧
      w'.has_pid = true ∧ w'.has_exited_ = true ∧ w'.status_ = 0 ∧
      w'.running env = (false, w', false) ∧
      w'.wait env = some (w', false) := by
  refine ⟨PIDWatcher.mk w.wait_exit_ p 0 true, ?_, ?_, rfl, rfl, ?_, ?_⟩
  · exact PIDWatcher.set_pid_fresh w.reset p rfl (by omega)
  · simp only [PIDWatcher.has_pid, decide_eq_true_eq]
    omega
  · exact PIDWatcher.running_exited_false _ env rfl
  · refine PIDWatcher.wait_exited_noop _ env rfl ?_
    simp only [PIDWatcher.has_pid, decide_eq_true_eq]
    omega

/-- C9, witness at `p = 7` starting from the empty watcher. -/
theorem C9_witness :
    ∃ w' : PIDWatcher,
      PIDWatcher.mk0.reset.set_pid 7 = Except.ok (w', true) ∧
      w'.has_pid = true ∧ w'.has_exited_ = true ∧ w'.status_ = 0 ∧
      w'.running envDead = (false, w', false) ∧
      w'.wait envDead = some (w', false) :=
  C9_assign_after_clear_stays_exited envDead PIDWatcher.mk0 7 (by decide)

/-! ### Shared lemmas about `step` -/

theorem PIDWatcher.step_set_pid_cases (env : OSEnv) (p : Int)
    (w : PIDWatcher) :
    PIDWatcher.step env (Op.set_pid p) w = w ∨
      PIDWatcher.step env (Op.set_pid p) w = { w with pid_ := p } := by
  by_cases h1 : p < 1
  · left
    simp [PIDWatcher.step, PIDWatcher.set_pid_nonpositive w p h1]
  · by_cases h2 : w.has_pid = true ∧ ¬ p = w.pid_
    · left
      simp [PIDWatcher.step, PIDWatcher.set_pid, h1, h2.1, h2.2]
    · right
      simp [PIDWatcher.step, PIDWatcher.set_pid, h1, h2]

theorem PIDWatcher.step_set_pid_pid (env : OSEnv) (p : Int) (w : PIDWatcher)
    (h : w.has_pid = true) :
    (PIDWatcher.step env (Op.set_pid p) w).pid_ = w.pid_ := by
  by_cases h1 : p < 1
  · simp [PIDWatcher.step, PIDWatcher.set_pid_nonpositive w p h1]
  · by_cases h2 : p = w.pid_
    · subst h2
      simp [PIDWatcher.step, PIDWatcher.set_pid_same w w.pid_ h rfl]
    · simp [PIDWatcher.step, PIDWatcher.set_pid_different w p h h1 h2]

theorem PIDWatcher.step_wait_cases (env : OSEnv) (w : PIDWatcher) :
    PIDWatcher.step env Op.wait w = w ∨
      PIDWatcher.step env Op.wait w = (w.wait_ env).1 := by
  by_cases h : w.has_pid = true
  · right
    simp [PIDWatcher.step, PIDWatcher.wait, h]
  · left
    simp [PIDWatcher.step, PIDWatcher.wait, h]

theorem PIDWatcher.step_exitedProperly_cases (env : OSEnv) (w : PIDWatcher) :
    PIDWatcher.step env Op.exitedProperly w = w ∨
      PIDWatcher.step env Op.exitedProperly w = (w.wait_ env).1 := by
  by_cases h : w.has_pid = true
  · right
    simp [PIDWatcher.step, PIDWatcher.exitedProperly, PIDWatcher.wait, h]
  · left
    simp [PIDWatcher.step, PIDWatcher.exitedProperly, PIDWatcher.wait, h]

theorem PIDWatcher.step_getExitStatus_cases (env : OSEnv) (w : PIDWatcher) :
    PIDWatcher.step env Op.getExitStatus w = w ∨
      PIDWatcher.step env Op.getExitStatus w = (w.wait_ env).1 := by
  by_cases h : w.has_pid = true
  · right
    simp [PIDWatcher.step, PIDWatcher.getExitStatus, PIDWatcher.wait, h]
  · left
    simp [PIDWatcher.step, PIDWatcher.getExitStatus, PIDWatcher.wait, h]

theorem PIDWatcher.step_success_cases (env : OSEnv) (w : PIDWatcher) :
    PIDWatcher.step env Op.success w = w ∨
      PIDWatcher.step env Op.success w = (w.wait_ env).1 := by
  by_cases h : w.has_pid = true
  · right
    simp [PIDWatcher.step, PIDWatcher.success, PIDWatcher.wait, h]
  · left
    simp [PIDWatcher.step, PIDWatcher.success, PIDWatcher.wait, h]

theorem PIDWatcher.step_terminate_eq (env : OSEnv) (w : PIDWatcher) :
    PIDWatcher.step env Op.terminate w = w := by
  simp only [PIDWatcher.step, PIDWatcher.terminate]
  split <;> rfl

theorem PIDWatcher.step_running_exited_mono (env : OSEnv) (w : PIDWatcher)
    (h : w.has_exited_ = true) :
    (PIDWatcher.step env Op.running w).has_exited_ = true := by
  simp [PIDWatcher.step, PIDWatcher.running, h]

/-! ### Claims C1 and C5: state-machine invariants over all operations -/

/-- C1, counterexample: `reset()` does discard an assigned pid — on a
watcher holding pid 5, `reset` stores 0 in `pid_`, so the stored pid does
not survive every operation of the instance's lifetime. -/
theorem C1_counterexample :
    (PIDWatcher.mkPid 5).has_pid = true ∧
      ((PIDWatcher.mkPid 5).reset).pid_ ≠ (PIDWatcher.mkPid 5).pid_ := by
  exact ⟨by decide, by decide⟩

/-- C1, amended: once a PID has been assigned, every operation *other
than* `reset` preserves the stored pid: failed or identical `set_pid`
calls, blocking and non-blocking reads, `wait`, `running`, `terminate`
and the accessors all leave `pid_` as it was. `reset` is the one
exception — it discards the pid back to the unassigned value 0 (after
which a later `set_pid` may store a different pid). -/
theorem C1_pid_immutable_except_reset (env : OSEnv) (op : Op)
    (w : PIDWatcher) (hop : op ≠ Op.reset) (h : w.has_pid = true) :
    (PIDWatcher.step env op w).pid_ = w.pid_ := by
  cases op with
  | set_pid p => exact PIDWatcher.step_set_pid_pid env p w h
  | get_pid => rfl
  | wait =>
    rcases PIDWatcher.step_wait_cases env w with hc | hc <;> rw [hc]
    exact (PIDWatcher.wait__state w env).1
  | reset => exact absurd rfl hop
  | terminate => rw [PIDWatcher.step_terminate_eq]
  | running => exact (PIDWatcher.running_state w env).1
  | getWaitExit => rfl
  | setWaitExit b => rfl
  | exitedProperly =>
    rcases PIDWatcher.step_exitedProperly_cases env w with hc | hc <;> rw [hc]
    exact (PIDWatcher.wait__state w env).1
  | getExitStatus =>
    rcases PIDWatcher.step_getExitStatus_cases env w with hc | hc <;> rw [hc]
    exact (PIDWatcher.wait__state w env).1
  | success =>
    rcases PIDWatcher.step_success_cases env w with hc | hc <;> rw [hc]
    exact (PIDWatcher.wait__state w env).1
  | has_pid => rfl

/-- C1, witness: `terminate` on a watcher holding pid 5 keeps `pid_`. -/
theorem C1_witness :
    (PIDWatcher.step envDead Op.terminate (PIDWatcher.mkPid 5)).pid_ =
      (PIDWatcher.mkPid 5).pid_ :=
  C1_pid_immutable_except_reset envDead Op.terminate (PIDWatcher.mkPid 5)
    (by decide) (by decide)

/-- C5: `has_exited_` is monotonic — every operation (`set_pid`,
`get_pid`, `wait`, `running`, `reset`, `terminate`, the status accessors,
the flag accessors) maps a state with `has_exited_ = true` to a state
with `has_exited_ = true`; no operation transitions the flag back to
false. -/
theorem C5_has_exited_monotonic (env : OSEnv) (op : Op) (w : PIDWatcher)
    (h : w.has_exited_ = true) :
    (PIDWatcher.step env op w).has_exited_ = true := by
  cases op with
  | set_pid p =>
    rcases PIDWatcher.step_set_pid_cases env p w with hc | hc <;> rw [hc] <;>
      exact h
  | get_pid => exact h
  | wait =>
    rcases PIDWatcher.step_wait_cases env w with hc | hc <;> rw [hc]
    · exact h
    · exact (PIDWatcher.wait__state w env).2.2
  | reset => rfl
  | terminate => rw [PIDWatcher.step_terminate_eq]; exact h
  | running => exact PIDWatcher.step_running_exited_mono env w h
  | getWaitExit => exact h
  | setWaitExit b => exact h
  | exitedProperly =>
    rcases PIDWatcher.step_exitedProperly_cases env w with hc | hc <;> rw [hc]
    · exact h
    · exact (PIDWatcher.wait__state w env).2.2
  | getExitStatus =>
    rcases PIDWatcher.step_getExitStatus_cases env w with hc | hc <;> rw [hc]
    · exact h
    · exact (PIDWatcher.wait__state w env).2.2
  | success =>
    rcases PIDWatcher.step_success_cases env w with hc | hc <;> rw [hc]
    · exact h
    · exact (PIDWatcher.wait__state w env).2.2
  | has_pid => exact h

/-- C5, witness: `wait` on an exited watcher keeps the flag. -/
theorem C5_witness :
    (PIDWatcher.step envDead Op.wait
        (PIDWatcher.mk true 5 3 true)).has_exited_ = true :=
  C5_has_exited_monotonic envDead Op.wait (PIDWatcher.mk true 5 3 true) rfl

/-! ### Claim C8: `reset` followed by destruction -/

theorem PIDWatcher.reset_has_pid (w : PIDWatcher) :
    (w.reset).has_pid = false := by
  rfl

theorem PIDWatcher.step_no_pid (env : OSEnv) (op : Op) (w : PIDWatcher)
    (hop : ∀ p, op ≠ Op.set_pid p) (h : w.has_pid = false) :
    (PIDWatcher.step env op w).has_pid = false := by
  cases op with
  | set_pid p => exact absurd rfl (hop p)
  | get_pid => exact h
  | wait => simp [PIDWatcher.step, PIDWatcher.wait, h]
  | reset => exact PIDWatcher.reset_has_pid w
  | terminate => rw [PIDWatcher.step_terminate_eq]; exact h
  | running => simp [PIDWatcher.step, PIDWatcher.running, h]
  | getWaitExit => exact h
  | setWaitExit b => exact h
  | exitedProperly =>
    simp [PIDWatcher.step, PIDWatcher.exitedProperly, PIDWatcher.wait, h]
  | getExitStatus =>
    simp [PIDWatcher.step, PIDWatcher.getExitStatus, PIDWatcher.wait, h]
  | success =>
    simp [PIDWatcher.step, PIDWatcher.success, PIDWatcher.wait, h]
  | has_pid => exact h

theorem PIDWatcher.steps_no_pid (env : OSEnv) (ops : List Op)
    (w : PIDWatcher) (hops : ∀ p, Op.set_pid p ∉ ops)
    (h : w.has_pid = false) :
    (PIDWatcher.steps env ops w).has_pid = false := by
  induction ops generalizing w with
  | nil => exact h
  | cons op rest ih =>
    have h1 : ∀ p, op ≠ Op.set_pid p := by
      intro p hp
      exact hops p (by rw [← hp]; exact List.mem_cons_self op rest)
    have h2 : ∀ p, Op.set_pid p ∉ rest := by
      intro p hp
      exact hops p (List.mem_cons_of_mem op hp)
    exact ih (PIDWatcher.step env op w) h2
      (PIDWatcher.step_no_pid env op w h1 h)

/-- C8: after `reset()` — and any further operations that are not an
assignment — the destructor's blocking-wait branch is unreachable: its
guard `has_pid() && wait_exit_` is false because `reset` stored 0 in
`pid_`, and no operation other than `set_pid` can make `has_pid` true
again. This holds even if `wait_exit_` is still true and a PID had been
assigned before the `reset()`, for every environment of OS outcomes. -/
theorem C8_clear_then_destructor_never_blocks (env : OSEnv) (ops : List Op)
    (w : PIDWatcher) (hops : ∀ p, Op.set_pid p ∉ ops) :
    (PIDWatcher.steps env ops w.reset).destructorWaits = false := by
  have h : (PIDWatcher.steps env ops w.reset).has_pid = false :=
    PIDWatcher.steps_no_pid env ops w.reset hops (PIDWatcher.reset_has_pid w)
  simp [PIDWatcher.destructorWaits, h]

/-- C8, witness: pid 5 was assigned, `reset`, then a probe and a
termination request; the destructor guard is still false. -/
theorem C8_witness :
    (PIDWatcher.steps envDead [Op.running, Op.terminate]
        (PIDWatcher.mkPid 5).reset).destructorWaits = false :=
  C8_clear_then_destructor_never_blocks envDead [Op.running, Op.terminate]
    (PIDWatcher.mkPid 5) (by intro p; simp)
